import Mathlib

/-!
Verification of the UAE Promo Pulse data validator (`src/validator.py`).

This file gives a shallow embedding of the validation-and-cleaning-policy
engine: the field-level rules of `ValidationRules`, the record-level
validators and dataset orchestration of `DataValidator`, and the
`CleaningPolicies` table, together with theorems settling the frozen claims
about them.

Modelling conventions:
* A Python scalar cell is a `Value`: a string, a number (exact rational
  standing for a finite float or int), the float `nan` (pandas' missing
  marker, which is *truthy* and *coercible* in Python), or `none_`
  (Python `None`).
* `pyFloat` models Python `float(value)`: it returns `Except Unit Flt`
  where the `error` case stands for a raised `ValueError`/`TypeError`;
  `Flt` is a finite rational or NaN, and `fltLt`/`fltGt`/`fltLe` follow
  IEEE comparison semantics (every comparison with NaN is false).
  String parsing accepts optional sign, digits and one decimal point,
  with surrounding whitespace (exponents and `inf`/`nan` spellings are
  not modelled; no claim exercises them).
* `fltStr` models Python `str()` of a float: integral values render with a
  trailing `.0`, other values as their decimal expansion.
* A record is an association list from field names to `Value`s; `hasField`
  models Python `in` on the dict and `getField` models `record[k]` /
  `row.get(k)` (absent keys give `none_`, i.e. Python `None`).
* `pdParseOk` models `pd.to_datetime` succeeding on a string that already
  matched the `YYYY-MM-DD HH:MM:SS` pattern: it checks calendar validity
  of the six fields (pandas' int64-nanosecond year bounds are not
  modelled; no claim exercises them).
-/

/-- A raw Python scalar value as it appears in a record cell. -/
inductive Value where
  | str (s : String)
  | num (q : ℚ)
  | nan
  | none_
deriving DecidableEq

/-- The result of a successful Python `float()` coercion. -/
inductive Flt where
  | finite (q : ℚ)
  | nan
deriving DecidableEq

/-- IEEE `<` on floats: any comparison involving NaN is false. -/
def fltLt : Flt → Flt → Bool
  | .finite a, .finite b => decide (a < b)
  | _, _ => false

/-- IEEE `>` on floats. -/
def fltGt (a b : Flt) : Bool := fltLt b a

/-- IEEE `≤` on floats: false whenever either side is NaN. -/
def fltLe : Flt → Flt → Bool
  | .finite a, .finite b => decide (a ≤ b)
  | _, _ => false

/-- Truncation of a rational toward zero (`Int.tdiv` is T-division, the
rounding mode of Python `int()` on a float). -/
def ratTrunc (q : ℚ) : ℤ := Int.tdiv q.num (q.den : ℤ)

/-- Decimal digits of the proper fraction `n / d` (with `n < d`), up to
`fuel` digits, by repeated multiplication by ten. -/
def fracDigits : Nat → ℕ → ℕ → String
  | 0, _, _ => ""
  | fuel + 1, n, d =>
    if n = 0 then ""
    else
      let n10 := n * 10
      toString (n10 / d) ++ fracDigits fuel (n10 % d) d

/-- Python `str()` of a float: integral values get a trailing `.0`,
other values their decimal expansion; NaN prints as `nan`. -/
def fltStr : Flt → String
  | .nan => "nan"
  | .finite q =>
    if q.den = 1 then toString q.num ++ ".0"
    else
      let n := q.num.natAbs
      let ip := n / q.den
      let frac := fracDigits 30 (n % q.den) q.den
      (if q.num < 0 then "-" else "") ++ toString ip ++ "." ++
        (if frac = "" then "0" else frac)

/-- Numeric value of a list of decimal digit characters. -/
def digitsVal (cs : List Char) : ℤ :=
  cs.foldl (fun a c => a * 10 + ((c.toNat - 48 : ℕ) : ℤ)) 0

/-- Python `str.strip()`: drop whitespace from both ends. -/
def pyStrip (s : String) : String :=
  String.mk (((s.data.dropWhile Char.isWhitespace).reverse.dropWhile Char.isWhitespace).reverse)

/-- Python `float()` on a string: optional surrounding whitespace, optional
sign, digits with at most one decimal point, at least one digit. -/
def pyFloatOfStr (s : String) : Except Unit Flt :=
  let cs := (pyStrip s).data
  let (sign, body) : ℤ × List Char :=
    match cs with
    | '-' :: rest => (-1, rest)
    | '+' :: rest => (1, rest)
    | _ => (1, cs)
  let intPart := body.takeWhile Char.isDigit
  let rest := body.dropWhile Char.isDigit
  match rest with
  | [] =>
    if intPart.isEmpty then .error ()
    else .ok (.finite (Rat.divInt (sign * digitsVal intPart) 1))
  | '.' :: fracPart =>
    if fracPart.all Char.isDigit && !(intPart.isEmpty && fracPart.isEmpty) then
      .ok (.finite (Rat.divInt
        (sign * (digitsVal intPart * 10 ^ fracPart.length + digitsVal fracPart))
        (10 ^ fracPart.length)))
    else .error ()
  | _ => .error ()

/-- Python `float(value)`: numbers and NaN coerce (NaN successfully coerces
to NaN), `None` raises `TypeError`, strings are parsed. -/
def pyFloat : Value → Except Unit Flt
  | .num q => .ok (.finite q)
  | .nan => .ok .nan
  | .none_ => .error ()
  | .str s => pyFloatOfStr s

/-- Python `int()` applied to a float: truncates toward zero; `int(nan)`
raises `ValueError`. -/
def fltToInt : Flt → Except Unit ℤ
  | .nan => .error ()
  | .finite q => .ok (ratTrunc q)

/-- `pd.isna(value)`: true exactly on NaN and `None`. -/
def isna : Value → Bool
  | .nan => true
  | .none_ => true
  | _ => false

/-- Python truthiness `bool(value)`: `None` is falsy, NaN is truthy,
numbers are truthy iff nonzero, strings iff nonempty. -/
def pyTruthy : Value → Bool
  | .none_ => false
  | .nan => true
  | .num q => decide (q ≠ 0)
  | .str s => decide (s ≠ "")

/-- Python `str(value)` for the values a record cell can hold. -/
def pyStr : Value → String
  | .str s => s
  | .num q => if q.den = 1 then toString q.num else fltStr (.finite q)
  | .nan => "nan"
  | .none_ => "None"

/-- One character class check of the `^\d{4}-\d{2}-\d{2} \d{2}:\d{2}:\d{2}$`
pattern: the fixed separator layout of the 19 characters. -/
def tsShape : List Char → Bool
  | [y1, y2, y3, y4, '-', m1, m2, '-', d1, d2, ' ', h1, h2, ':', n1, n2, ':', s1, s2] =>
    [y1, y2, y3, y4, m1, m2, d1, d2, h1, h2, n1, n2, s1, s2].all Char.isDigit
  | _ => false

/-- `re.match` of `TIMESTAMP_PATTERN` against a string: the anchored
pattern, with `$` also accepting one trailing newline as Python's `$` does. -/
def tsPatternMatch (s : String) : Bool :=
  tsShape s.data ||
    (match s.data.reverse with
     | '\n' :: rest => tsShape rest.reverse
     | _ => false)

/-- Number value of a run of digit characters, as a natural number. -/
def digitsNat (cs : List Char) : ℕ := cs.foldl (fun a c => a * 10 + (c.toNat - 48)) 0

/-- Days in a month of the (proleptic) Gregorian calendar. -/
def daysInMonth (year month : ℕ) : ℕ :=
  if month = 2 then
    if year % 4 = 0 && (year % 100 ≠ 0 || year % 400 = 0) then 29 else 28
  else if month ∈ [4, 6, 9, 11] then 30 else 31

/-- `pd.to_datetime` succeeding on a string of the matched shape: the six
numeric fields must form a valid calendar date and clock time. -/
def pdParseOk (s : String) : Bool :=
  match s.data with
  | [y1, y2, y3, y4, '-', m1, m2, '-', d1, d2, ' ', h1, h2, ':', n1, n2, ':', s1, s2] =>
    let year := digitsNat [y1, y2, y3, y4]
    let month := digitsNat [m1, m2]
    let day := digitsNat [d1, d2]
    let hour := digitsNat [h1, h2]
    let minute := digitsNat [n1, n2]
    let second := digitsNat [s1, s2]
    1 ≤ month && month ≤ 12 && 1 ≤ day && day ≤ daysInMonth year month &&
      hour ≤ 23 && minute ≤ 59 && second ≤ 59
  | _ => false

/-! ## ValidationRules (`src/validator.py` lines 11-109) -/

/-- `VALID_CITIES` constant. -/
def VALID_CITIES : List String := ["Dubai", "Abu Dhabi", "Sharjah"]

/-- `VALID_CHANNELS` constant. -/
def VALID_CHANNELS : List String := ["App", "Web", "Marketplace"]

/-- `VALID_PAYMENT_STATUS` constant. -/
def VALID_PAYMENT_STATUS : List String := ["Paid", "Failed", "Refunded"]

/-- `ValidationRules.validate_timestamp`: missing/empty fails; then the
pattern match; then the `pd.to_datetime` parse inside `try`/`except`. -/
def validate_timestamp (value : Value) : Bool × Option String :=
  if isna value || value == Value.str "" then (false, some "Missing timestamp")
  else if !tsPatternMatch (pyStr value) then (false, some ("Invalid format: " ++ pyStr value))
  else if pdParseOk (pyStr value) then (true, none)
  else (false, some ("Unparsable: " ++ pyStr value))

/-- `ValidationRules.validate_price`: `float()` coercion inside
`try`/`except`, then the `[0, 10000]` range check. -/
def validate_price (value : Value) : Bool × Option String :=
  match pyFloat value with
  | .error _ => (false, some ("Not numeric: " ++ pyStr value))
  | .ok p =>
    if fltLt p (.finite 0) || fltGt p (.finite 10000) then
      (false, some ("Outside range [0, 10000]: " ++ fltStr p))
    else (true, none)

/-- `ValidationRules.validate_quantity`: `int(float())` coercion inside
`try`/`except`, then the `[1, 100]` range check. -/
def validate_quantity (value : Value) : Bool × Option String :=
  match pyFloat value with
  | .error _ => (false, some ("Not numeric: " ++ pyStr value))
  | .ok f =>
    match fltToInt f with
    | .error _ => (false, some ("Not numeric: " ++ pyStr value))
    | .ok q =>
      if q < 1 || q > 100 then (false, some ("Outside range [1, 100]: " ++ toString q))
      else (true, none)

/-- `ValidationRules.validate_city`: missing/empty fails, else the trimmed
string must belong to `VALID_CITIES`. -/
def validate_city (value : Value) : Bool × Option String :=
  if isna value || value == Value.str "" then (false, some "Missing city")
  else
    let city := pyStrip (pyStr value)
    if !VALID_CITIES.contains city then (false, some ("Invalid city: " ++ city))
    else (true, none)

/-- `ValidationRules.validate_channel`. -/
def validate_channel (value : Value) : Bool × Option String :=
  if isna value || value == Value.str "" then (false, some "Missing channel")
  else
    let channel := pyStrip (pyStr value)
    if !VALID_CHANNELS.contains channel then (false, some ("Invalid channel: " ++ channel))
    else (true, none)

/-- `ValidationRules.validate_payment_status`. -/
def validate_payment_status (value : Value) : Bool × Option String :=
  if isna value || value == Value.str "" then (false, some "Missing payment_status")
  else
    let status := pyStrip (pyStr value)
    if !VALID_PAYMENT_STATUS.contains status then (false, some ("Invalid status: " ++ status))
    else (true, none)

/-- `ValidationRules.validate_cost_constraint`: both coercions inside one
`try`/`except` whose handler returns valid (the permissive no-op). -/
def validate_cost_constraint (cost price : Value) : Bool × Option String :=
  match pyFloat cost, pyFloat price with
  | .ok c, .ok p =>
    if fltGt c p then (false, some ("Cost " ++ fltStr c ++ " > Price " ++ fltStr p))
    else (true, none)
  | _, _ => (true, none)

/-- `ValidationRules.validate_stock`: `float()` coercion inside
`try`/`except`, then the non-negativity check. -/
def validate_stock (value : Value) : Bool × Option String :=
  match pyFloat value with
  | .error _ => (false, some ("Not numeric: " ++ pyStr value))
  | .ok s =>
    if fltLt s (.finite 0) then (false, some ("Negative stock: " ++ fltStr s))
    else (true, none)

/-! ## DataValidator (`src/validator.py` lines 112-273) -/

/-- One issue dict as built inside a record validator (before the
`record_identifier` stamp): `issue_type`, `issue_detail`, `action_taken`. -/
structure Issue0 where
  issue_type : String
  issue_detail : Option String
  action_taken : String
deriving DecidableEq

/-- One row of the final issue log of `validate_dataset`. -/
structure IssueRow where
  record_identifier : Value
  issue_type : String
  issue_detail : Option String
  action_taken : String
deriving DecidableEq

/-- A record, i.e. `row.to_dict()`: an association list of field names to values. -/
abbrev Record := List (String × Value)

/-- Python `field in record`. -/
def hasField (r : Record) (k : String) : Bool := r.any (fun p => p.1 == k)

/-- Python `record[k]` / `row.get(k)`: the stored value, or `None` when absent. -/
def getField (r : Record) (k : String) : Value :=
  match r.find? (fun p => p.1 == k) with
  | some p => p.2
  | none => Value.none_

/-- The shared shape of each rule block of a record validator:
`if field in record: valid, msg = rule(...); if not valid: issues.append(...)`. -/
def ruleBlock (present : Bool) (res : Bool × Option String) (ty act : String) : List Issue0 :=
  if present then (if res.1 then [] else [⟨ty, res.2, act⟩]) else []

/-- `DataValidator.validate_sales_record`: the eight blocks in source order.
The `record_id` parameter is accepted and unused, as in the source. -/
def validate_sales_record (record : Record) (record_id : Value) : List Issue0 :=
  ruleBlock (hasField record "order_time")
      (validate_timestamp (getField record "order_time")) "INVALID_TIMESTAMP" "DROP"
    ++ ruleBlock (hasField record "selling_price_aed")
      (validate_price (getField record "selling_price_aed")) "OUTLIER_VALUE" "CAP"
    ++ ruleBlock (hasField record "qty")
      (validate_quantity (getField record "qty")) "OUTLIER_VALUE" "CAP"
    ++ ruleBlock (hasField record "city")
      (validate_city (getField record "city")) "INVALID_CITY" "CORRECT"
    ++ ruleBlock (hasField record "channel")
      (validate_channel (getField record "channel")) "INVALID_CHANNEL" "CORRECT"
    ++ ruleBlock (hasField record "payment_status")
      (validate_payment_status (getField record "payment_status")) "INVALID_VALUE" "CORRECT"
    ++ ruleBlock (hasField record "unit_cost_aed" && hasField record "base_price_aed")
      (validate_cost_constraint (getField record "unit_cost_aed") (getField record "base_price_aed"))
      "CONSTRAINT_VIOLATION" "CAP"
    ++ (if !hasField record "discount_pct" || isna (getField record "discount_pct") then
          [⟨"MISSING_VALUE", some "Missing discount_pct", "IMPUTE"⟩]
        else [])

/-- `DataValidator.validate_inventory_record`. -/
def validate_inventory_record (record : Record) (record_id : Value) : List Issue0 :=
  ruleBlock (hasField record "stock_on_hand")
    (validate_stock (getField record "stock_on_hand")) "IMPOSSIBLE_VALUE" "CORRECT"

/-- `DataValidator.validate_products_record`. -/
def validate_products_record (record : Record) (record_id : Value) : List Issue0 :=
  (if !hasField record "unit_cost_aed" || isna (getField record "unit_cost_aed") then
      [⟨"MISSING_VALUE", some "Missing unit_cost_aed", "IMPUTE"⟩]
    else [])
    ++ ruleBlock (hasField record "unit_cost_aed" && hasField record "base_price_aed")
      (validate_cost_constraint (getField record "unit_cost_aed") (getField record "base_price_aed"))
      "CONSTRAINT_VIOLATION" "CAP"

/-- `record_id = row.get('order_id') or row.get('product_id') or f'ROW_{idx}'`:
Python `or` keeps the first *truthy* operand. -/
def pyRecordId (idx : ℕ) (row : Record) : Value :=
  let a := getField row "order_id"
  if pyTruthy a then a
  else
    let b := getField row "product_id"
    if pyTruthy b then b else Value.str ("ROW_" ++ toString idx)

/-- The body of the `for idx, row in df.iterrows()` loop of
`validate_dataset`, with `idx` the running row index. -/
def validateRows : ℕ → List Record → String → List IssueRow
  | _, [], _ => []
  | idx, row :: rest, dataset_type =>
    let record_id := pyRecordId idx row
    let issues :=
      if dataset_type == "sales" then validate_sales_record row record_id
      else if dataset_type == "inventory" then validate_inventory_record row record_id
      else if dataset_type == "products" then validate_products_record row record_id
      else []
    issues.map (fun i => ⟨record_id, i.issue_type, i.issue_detail, i.action_taken⟩)
      ++ validateRows (idx + 1) rest dataset_type

/-- `DataValidator.validate_dataset`: takes the validator's retained
`self.issues` state, returns `(result, new self.issues)`. The source only
overwrites `self.issues` with the freshly computed list and never reads it,
which the definition makes explicit by ignoring its first argument. -/
def validate_dataset (self_issues : List IssueRow) (df : List Record)
    (dataset_type : String) : List IssueRow × List IssueRow :=
  let validation_issues := validateRows 0 df dataset_type
  (validation_issues, validation_issues)

/-! ## CleaningPolicies (`src/validator.py` lines 276-320) -/

/-- One cleaning policy: remedial action and business justification. -/
structure Policy where
  action : String
  justification : String
deriving DecidableEq

/-- The `CleaningPolicies.POLICIES` dict, in source order. -/
def POLICIES : List (String × Policy) :=
  [("INVALID_TIMESTAMP",
     ⟨"DROP", "Corrupted timestamps cannot be inferred; data integrity > completeness"⟩),
   ("OUTLIER_VALUE",
     ⟨"CAP", "Cap at percentile bounds (95th percentile) to preserve data while fixing anomalies"⟩),
   ("MISSING_VALUE",
     ⟨"IMPUTE", "discount_pct: set to 0 (no discount); unit_cost: impute as 50% of base_price"⟩),
   ("INVALID_CITY",
     ⟨"CORRECT", "Standardize to valid city names (Dubai default); supports geospatial analysis"⟩),
   ("INVALID_CHANNEL",
     ⟨"CORRECT", "Standardize to valid channel (App default); ensures channel consistency"⟩),
   ("INVALID_VALUE",
     ⟨"CORRECT", "payment_status: default to Paid; preserves transaction data"⟩),
   ("CONSTRAINT_VIOLATION",
     ⟨"CAP", "unit_cost > base_price: cap unit_cost at base_price; maintains margin logic"⟩),
   ("IMPOSSIBLE_VALUE",
     ⟨"CORRECT", "Negative stock: set to 0; stock > 1000: cap at 500 (supply chain bounds)"⟩)]

/-- The eight pre-populated policy keys, in table order. -/
def policyKeys : List String := POLICIES.map (fun p => p.1)

/-- `CleaningPolicies.get_policy`: dict lookup with the SKIP default. -/
def get_policy (issue_type : String) : Policy :=
  match POLICIES.find? (fun p => p.1 == issue_type) with
  | some p => p.2
  | none => ⟨"SKIP", "No policy defined"⟩

/-! ## Definitions modelled from the spec's words, for comparison -/

/-- Modelled from the spec: C5's claimed contract for `validate_price` —
coercion failure yields invalid with a "not numeric" diagnostic, and a
coerced number is valid iff it lies in `[0, 10000]`. -/
def price_rule_claim (v : Value) : Prop :=
  match pyFloat v with
  | .error _ => validate_price v = (false, some ("Not numeric: " ++ pyStr v))
  | .ok p => (validate_price v).1 = true ↔
      (fltLe (.finite 0) p = true ∧ fltLe p (.finite 10000) = true)

/-- Modelled from the spec: C2's claimed identifier resolution — the first
*non-missing* candidate among the order identifier, the product identifier
and the synthetic `ROW_<index>` string wins. -/
def record_id_claim (idx : ℕ) (row : Record) : Value :=
  if hasField row "order_id" && !isna (getField row "order_id") then
    getField row "order_id"
  else if hasField row "product_id" && !isna (getField row "product_id") then
    getField row "product_id"
  else Value.str ("ROW_" ++ toString idx)

/-- The scenario-B sales record of claim C1:
`selling_price_aed = 15000`, `qty = 3`, `city = "Dubayy"`, nothing else. -/
def recB : Record :=
  [("selling_price_aed", Value.num 15000), ("qty", Value.num 3), ("city", Value.str "Dubayy")]

/-- The claim-C2 counterexample row: an order identifier that is present and
non-missing but falsy (the empty string), next to a product identifier. -/
def recC2 : Record := [("order_id", Value.str ""), ("product_id", Value.str "P1")]

/-- The claim-C9 witness record: every gated field present but null
(NaN or `None`). -/
def recC9 : Record :=
  [("order_time", Value.nan), ("city", Value.none_),
   ("channel", Value.nan), ("payment_status", Value.nan)]

/-- Every `(issue_type, action_taken)` pair a record validator can emit. -/
def issuePairs : List (String × String) :=
  [("INVALID_TIMESTAMP", "DROP"), ("OUTLIER_VALUE", "CAP"), ("INVALID_CITY", "CORRECT"),
   ("INVALID_CHANNEL", "CORRECT"), ("INVALID_VALUE", "CORRECT"),
   ("CONSTRAINT_VIOLATION", "CAP"), ("MISSING_VALUE", "IMPUTE"), ("IMPOSSIBLE_VALUE", "CORRECT")]

/-! ## Theorems -/

/-- C1 counterexample: the scenario-B record yields *three* issues, not two —
the code also emits `MISSING_VALUE`/IMPUTE because `discount_pct` is absent
(the discount presence check fires on absence instead of being skipped). -/
theorem c1_counterexample :
    (validate_sales_record recB (Value.str "ROW_0")).map Issue0.issue_type =
      ["OUTLIER_VALUE", "INVALID_CITY", "MISSING_VALUE"] ∧
    (validate_sales_record recB (Value.str "ROW_0")).length = 3 := by
  constructor <;> decide

/-- C1 (amended): the scenario-B record
`selling_price_aed = 15000, qty = 3, city = "Dubayy"` yields exactly three
issues, in rule order: `OUTLIER_VALUE`/CAP for the price, `INVALID_CITY`/CORRECT
for the city, and `MISSING_VALUE`/IMPUTE for the absent `discount_pct`; the
channel and payment_status rules are skipped because those fields are absent. -/
theorem c1_amended :
    validate_sales_record recB (Value.str "ROW_0") =
      [⟨"OUTLIER_VALUE", some "Outside range [0, 10000]: 15000.0", "CAP"⟩,
       ⟨"INVALID_CITY", some "Invalid city: Dubayy", "CORRECT"⟩,
       ⟨"MISSING_VALUE", some "Missing discount_pct", "IMPUTE"⟩] := by
  decide

/-- C3: `get_policy` is total; each of the eight known categories maps to its
pre-populated action (DROP, CAP, IMPUTE, CORRECT, CORRECT, CORRECT, CAP,
CORRECT respectively), and every other issue-type string gets the default
`(SKIP, "No policy defined")`. -/
theorem c3_get_policy :
    (get_policy "INVALID_TIMESTAMP").action = "DROP" ∧
    (get_policy "OUTLIER_VALUE").action = "CAP" ∧
    (get_policy "MISSING_VALUE").action = "IMPUTE" ∧
    (get_policy "INVALID_CITY").action = "CORRECT" ∧
    (get_policy "INVALID_CHANNEL").action = "CORRECT" ∧
    (get_policy "INVALID_VALUE").action = "CORRECT" ∧
    (get_policy "CONSTRAINT_VIOLATION").action = "CAP" ∧
    (get_policy "IMPOSSIBLE_VALUE").action = "CORRECT" ∧
    ∀ s : String, s ∉ policyKeys → get_policy s = ⟨"SKIP", "No policy defined"⟩ := by
  refine ⟨rfl, rfl, rfl, rfl, rfl, rfl, rfl, rfl, ?_⟩
  intro s hs
  simp only [policyKeys, POLICIES, List.map_cons, List.map_nil, List.mem_cons,
    List.not_mem_nil, or_false, not_or] at hs
  obtain ⟨h1, h2, h3, h4, h5, h6, h7, h8⟩ := hs
  have e1 : (("INVALID_TIMESTAMP" : String) == s) = false :=
    beq_eq_false_iff_ne.mpr (Ne.symm h1)
  have e2 : (("OUTLIER_VALUE" : String) == s) = false :=
    beq_eq_false_iff_ne.mpr (Ne.symm h2)
  have e3 : (("MISSING_VALUE" : String) == s) = false :=
    beq_eq_false_iff_ne.mpr (Ne.symm h3)
  have e4 : (("INVALID_CITY" : String) == s) = false :=
    beq_eq_false_iff_ne.mpr (Ne.symm h4)
  have e5 : (("INVALID_CHANNEL" : String) == s) = false :=
    beq_eq_false_iff_ne.mpr (Ne.symm h5)
  have e6 : (("INVALID_VALUE" : String) == s) = false :=
    beq_eq_false_iff_ne.mpr (Ne.symm h6)
  have e7 : (("CONSTRAINT_VIOLATION" : String) == s) = false :=
    beq_eq_false_iff_ne.mpr (Ne.symm h7)
  have e8 : (("IMPOSSIBLE_VALUE" : String) == s) = false :=
    beq_eq_false_iff_ne.mpr (Ne.symm h8)
  simp [get_policy, POLICIES, List.find?, e1, e2, e3, e4, e5, e6, e7, e8]

/-- Witness for C3 at the concrete unknown issue-type `"BOGUS"`. -/
theorem c3_witness : get_policy "BOGUS" = ⟨"SKIP", "No policy defined"⟩ :=
  c3_get_policy.2.2.2.2.2.2.2.2 "BOGUS" (by decide)

/-- C4: `validate_dataset` is deterministic and ignores the validator's
retained `self.issues` state: the returned issue sequence is the same for any
two prior states, and a second run on the same snapshot (threading the state
the first run produced) returns the identical sequence. -/
theorem c4_deterministic (s1 s2 : List IssueRow) (df : List Record) (k : String) :
    (validate_dataset s1 df k).1 = (validate_dataset s2 df k).1 ∧
    (validate_dataset (validate_dataset s1 df k).2 df k).1 = (validate_dataset s1 df k).1 :=
  ⟨rfl, rfl⟩

/-- C7: an unsupported dataset kind yields the empty issue list — no rule is
applied to any record and nothing is raised. -/
theorem c7_unknown_kind (s : List IssueRow) (df : List Record) (k : String)
    (h1 : k ≠ "sales") (h2 : k ≠ "inventory") (h3 : k ≠ "products") :
    (validate_dataset s df k).1 = [] := by
  have e1 : (k == "sales") = false := beq_eq_false_iff_ne.mpr h1
  have e2 : (k == "inventory") = false := beq_eq_false_iff_ne.mpr h2
  have e3 : (k == "products") = false := beq_eq_false_iff_ne.mpr h3
  have key : ∀ (n : ℕ) (l : List Record), validateRows n l k = [] := by
    intro n l
    induction l generalizing n with
    | nil => rfl
    | cons r rest ih => simp [validateRows, e1, e2, e3, ih]
  exact key 0 df

/-- Witness for C7: a nonempty inventory-shaped dataset under the unknown
kind `"promo"` produces no issues. -/
theorem c7_witness :
    (validate_dataset [] [[("stock_on_hand", Value.num 5)]] "promo").1 = [] :=
  c7_unknown_kind [] [[("stock_on_hand", Value.num 5)]] "promo"
    (by decide) (by decide) (by decide)

/-- C2 counterexample: in a sales row whose order identifier is present and
non-missing but equal to the empty string, the emitted `record_identifier`
is the product identifier `"P1"`, not the claimed first non-missing
candidate `""` — the source chain `row.get('order_id') or
row.get('product_id') or f'ROW_{idx}'` selects by Python truthiness, not by
missingness. -/
theorem c2_counterexample :
    record_id_claim 0 recC2 = Value.str "" ∧
    hasField recC2 "order_id" = true ∧
    isna (getField recC2 "order_id") = false ∧
    (validate_dataset [] [recC2] "sales").1.map IssueRow.record_identifier = [Value.str "P1"] ∧
    Value.str "P1" ≠ Value.str "" := by
  refine ⟨by decide, by decide, by decide, by decide, by decide⟩

/-- Decomposition helper: every issue emitted by the row loop carries the
`record_id` computed for its originating row. -/
theorem recordId_of_mem_validateRows {iss : IssueRow} {k : String} :
    ∀ (n : ℕ) (df : List Record), iss ∈ validateRows n df k →
      ∃ j row, df.get? j = some row ∧ iss.record_identifier = pyRecordId (n + j) row := by
  intro n df
  induction df generalizing n with
  | nil => intro h; simp [validateRows] at h
  | cons row rest ih =>
    intro h
    simp only [validateRows] at h
    rcases List.mem_append.mp h with h1 | h2
    · rcases List.mem_map.mp h1 with ⟨i0, _, hmap⟩
      refine ⟨0, row, rfl, ?_⟩
      rw [← hmap]
      simp
    · rcases ih (n + 1) h2 with ⟨j, row2, hget, hid⟩
      refine ⟨j + 1, row2, by simpa using hget, ?_⟩
      rw [hid]
      congr 1
      omega

/-- C2 (amended): every issue's `record_identifier` is resolved by Python
truthiness, not missingness: the order identifier wins iff it is truthy
(`None`, empty string and `0` are skipped even when present; NaN is truthy
and wins even though it is missing), else the product identifier iff truthy,
else the synthetic `ROW_<index>` string. -/
theorem c2_amended (s : List IssueRow) (df : List Record) (k : String) (iss : IssueRow)
    (h : iss ∈ (validate_dataset s df k).1) :
    ∃ j row, df.get? j = some row ∧
      iss.record_identifier =
        (if pyTruthy (getField row "order_id") then getField row "order_id"
         else if pyTruthy (getField row "product_id") then getField row "product_id"
         else Value.str ("ROW_" ++ toString j)) := by
  rcases recordId_of_mem_validateRows 0 df h with ⟨j, row, hget, hid⟩
  refine ⟨j, row, hget, ?_⟩
  rw [hid]
  simp [pyRecordId]

/-- Witness for C2 (amended) on the concrete one-row dataset `recC2`. -/
theorem c2_amended_witness :
    ∃ j row, [recC2].get? j = some row ∧
      (⟨Value.str "P1", "MISSING_VALUE", some "Missing discount_pct", "IMPUTE"⟩ :
          IssueRow).record_identifier =
        (if pyTruthy (getField row "order_id") then getField row "order_id"
         else if pyTruthy (getField row "product_id") then getField row "product_id"
         else Value.str ("ROW_" ++ toString j)) :=
  c2_amended [] [recC2] "sales"
    ⟨Value.str "P1", "MISSING_VALUE", some "Missing discount_pct", "IMPUTE"⟩ (by decide)

/-- C5 counterexample: NaN (a real pandas cell value) refutes the claimed
price contract — `float(nan)` succeeds, NaN is not within `[0, 10000]`
(both IEEE bound comparisons are false), yet the rule returns valid. -/
theorem c5_counterexample : ¬ price_rule_claim Value.nan := by
  intro h
  have h2 : (validate_price Value.nan).1 = true ↔
      (fltLe (.finite 0) .nan = true ∧ fltLe .nan (.finite 10000) = true) := h
  exact absurd (h2.mp (by decide)).1 (by decide)

/-- C5 (amended): if coercion raises, the price rule is invalid with the
"Not numeric" diagnostic; if the value coerces to a finite number `q`, it is
valid iff `0 ≤ q ≤ 10000` (invalid values get the diagnostic citing the
bound); if it coerces to NaN, the rule returns valid because both bound
comparisons are false on NaN. -/
theorem c5_amended (v : Value) :
    (pyFloat v = .error () → validate_price v = (false, some ("Not numeric: " ++ pyStr v))) ∧
    (∀ q : ℚ, pyFloat v = .ok (.finite q) → 0 ≤ q → q ≤ 10000 →
      validate_price v = (true, none)) ∧
    (∀ q : ℚ, pyFloat v = .ok (.finite q) → (q < 0 ∨ 10000 < q) →
      validate_price v = (false, some ("Outside range [0, 10000]: " ++ fltStr (.finite q)))) ∧
    (pyFloat v = .ok .nan → validate_price v = (true, none)) := by
  refine ⟨?_, ?_, ?_, ?_⟩
  · intro h
    unfold validate_price
    rw [h]
  · intro q h h0 h1
    have e0 : decide (q < 0) = false := decide_eq_false (not_lt.mpr h0)
    have e1 : decide (10000 < q) = false := decide_eq_false (not_lt.mpr h1)
    unfold validate_price
    rw [h]
    simp [fltLt, fltGt, e0, e1]
  · intro q h hor
    unfold validate_price
    rw [h]
    have hc : (fltLt (.finite q) (.finite 0) || fltGt (.finite q) (.finite 10000)) = true := by
      rcases hor with h2 | h2
      · simp [fltLt, fltGt, h2]
      · simp [fltLt, fltGt, h2]
    simp [hc]
  · intro h
    unfold validate_price
    rw [h]
    rfl

/-- Witness for C5 (amended) at the boundary and failure inputs:
price 10000 valid, 10000.01 invalid citing the bound, `None` not numeric,
NaN valid. -/
theorem c5_amended_witness :
    validate_price (Value.num 10000) = (true, none) ∧
    validate_price (Value.num (Rat.divInt 1000001 100)) =
      (false, some ("Outside range [0, 10000]: " ++ fltStr (.finite (Rat.divInt 1000001 100)))) ∧
    validate_price Value.none_ = (false, some ("Not numeric: " ++ pyStr Value.none_)) ∧
    validate_price Value.nan = (true, none) :=
  ⟨(c5_amended (Value.num 10000)).2.1 10000 rfl (by decide) (by decide),
   (c5_amended (Value.num (Rat.divInt 1000001 100))).2.2.1 (Rat.divInt 1000001 100) rfl
     (Or.inr (by decide)),
   (c5_amended Value.none_).1 rfl,
   (c5_amended Value.nan).2.2.2 rfl⟩

/-- C6 counterexample: at `(unit_cost, base_price) = (60, 50)` the rule is
invalid as claimed, but the diagnostic is `"Cost 60.0 > Price 50.0"` —
Python formats the coerced floats with a trailing `.0` — not the claimed
literal `"Cost 60 > Price 50"`. -/
theorem c6_counterexample :
    validate_cost_constraint (Value.num 60) (Value.num 50) =
      (false, some "Cost 60.0 > Price 50.0") ∧
    "Cost 60.0 > Price 50.0" ≠ "Cost 60 > Price 50" := by
  exact ⟨by decide, by decide⟩

/-- C6 (amended): if either value fails numeric coercion the rule returns
valid with no diagnostic (permissive no-op); otherwise it is invalid iff
`unit_cost > base_price` (IEEE: never for NaN operands), with the diagnostic
`"Cost <c> > Price <p>"` where `<c>`, `<p>` are the Python renderings of the
*coerced floats* — integral values print with a trailing `.0`, so
`(60, 50)` gives `"Cost 60.0 > Price 50.0"`. -/
theorem c6_amended (cost price : Value) :
    ((pyFloat cost = .error () ∨ pyFloat price = .error ()) →
      validate_cost_constraint cost price = (true, none)) ∧
    (∀ c p : Flt, pyFloat cost = .ok c → pyFloat price = .ok p →
      validate_cost_constraint cost price =
        (if fltGt c p then (false, some ("Cost " ++ fltStr c ++ " > Price " ++ fltStr p))
         else (true, none))) := by
  constructor
  · intro h
    unfold validate_cost_constraint
    rcases h with h | h
    · rw [h]
    · rw [h]
      cases hc : pyFloat cost
      · rfl
      · rfl
  · intro c p hc hp
    unfold validate_cost_constraint
    rw [hc, hp]

/-- Witness for C6 (amended): `(60, 50)` invalid with the float-formatted
diagnostic, `(40, 50)` valid, `(NaN, 50)` valid, `(None, 50)` valid. -/
theorem c6_amended_witness :
    validate_cost_constraint (Value.num 60) (Value.num 50) =
      (false, some "Cost 60.0 > Price 50.0") ∧
    validate_cost_constraint (Value.num 40) (Value.num 50) = (true, none) ∧
    validate_cost_constraint Value.nan (Value.num 50) = (true, none) ∧
    validate_cost_constraint Value.none_ (Value.num 50) = (true, none) := by
  refine ⟨?_, ?_, ?_, ?_⟩
  · rw [(c6_amended (Value.num 60) (Value.num 50)).2 (.finite 60) (.finite 50) rfl rfl]
    decide
  · rw [(c6_amended (Value.num 40) (Value.num 50)).2 (.finite 40) (.finite 50) rfl rfl]
    decide
  · rw [(c6_amended Value.nan (Value.num 50)).2 .nan (.finite 50) rfl rfl]
    decide
  · exact (c6_amended Value.none_ (Value.num 50)).1 (Or.inl rfl)

/-- C8 counterexample: `cost_constraint` does *not* convert a coercion
failure into an invalid result with a diagnostic — on `("abc", 50)` the
coercion of `"abc"` raises, and the rule returns valid with no diagnostic. -/
theorem c8_counterexample :
    pyFloat (Value.str "abc") = .error () ∧
    validate_cost_constraint (Value.str "abc") (Value.num 50) = (true, none) := by
  exact ⟨rfl, by decide⟩

/-- C8 (amended): every rule is total — each returns a `(valid, diagnostic)`
pair on every input, never propagating a fault — and converts coercion
failure into an invalid result with a diagnostic in the price, quantity,
stock and timestamp rules; `cost_constraint` alone maps coercion failure of
either operand to a *valid* result with no diagnostic (its deliberate
permissive no-op). -/
theorem c8_amended :
    (∀ v, pyFloat v = .error () →
      validate_price v = (false, some ("Not numeric: " ++ pyStr v))) ∧
    (∀ v, pyFloat v = .error () ∨ pyFloat v = .ok .nan →
      validate_quantity v = (false, some ("Not numeric: " ++ pyStr v))) ∧
    (∀ v, pyFloat v = .error () →
      validate_stock v = (false, some ("Not numeric: " ++ pyStr v))) ∧
    (∀ v, isna v = false → (v == Value.str "") = false →
      tsPatternMatch (pyStr v) = true → pdParseOk (pyStr v) = false →
      validate_timestamp v = (false, some ("Unparsable: " ++ pyStr v))) ∧
    (∀ c p, pyFloat c = .error () ∨ pyFloat p = .error () →
      validate_cost_constraint c p = (true, none)) := by
  refine ⟨?_, ?_, ?_, ?_, ?_⟩
  · intro v h
    unfold validate_price
    rw [h]
  · intro v h
    unfold validate_quantity
    rcases h with h | h
    · rw [h]
    · rw [h]
      rfl
  · intro v h
    unfold validate_stock
    rw [h]
  · intro v h1 h2 h3 h4
    unfold validate_timestamp
    rw [h1, h2, h3, h4]
    rfl
  · intro c p h
    unfold validate_cost_constraint
    rcases h with h | h
    · rw [h]
    · rw [h]
      cases hc : pyFloat c
      · rfl
      · rfl

/-- C9: when a gated sales field is present as a key but holds a null value
(NaN or `None`), the corresponding rule fires — the absence gate only tests
key membership — and emits its issue with the "Missing ..." diagnostic:
`INVALID_TIMESTAMP`/"Missing timestamp" for `order_time`,
`INVALID_CITY`/"Missing city", `INVALID_CHANNEL`/"Missing channel", and
`INVALID_VALUE`/"Missing payment_status". -/
theorem c9_null_gated_fields (record : Record) (record_id : Value) :
    (hasField record "order_time" = true → isna (getField record "order_time") = true →
      (⟨"INVALID_TIMESTAMP", some "Missing timestamp", "DROP"⟩ : Issue0) ∈
        validate_sales_record record record_id) ∧
    (hasField record "city" = true → isna (getField record "city") = true →
      (⟨"INVALID_CITY", some "Missing city", "CORRECT"⟩ : Issue0) ∈
        validate_sales_record record record_id) ∧
    (hasField record "channel" = true → isna (getField record "channel") = true →
      (⟨"INVALID_CHANNEL", some "Missing channel", "CORRECT"⟩ : Issue0) ∈
        validate_sales_record record record_id) ∧
    (hasField record "payment_status" = true → isna (getField record "payment_status") = true →
      (⟨"INVALID_VALUE", some "Missing payment_status", "CORRECT"⟩ : Issue0) ∈
        validate_sales_record record record_id) := by
  refine ⟨?_, ?_, ?_, ?_⟩
  · intro h1 h2
    have hv : validate_timestamp (getField record "order_time") =
        (false, some "Missing timestamp") := by
      unfold validate_timestamp
      rw [h2]
      rfl
    simp [validate_sales_record, ruleBlock, h1, hv]
  · intro h1 h2
    have hv : validate_city (getField record "city") = (false, some "Missing city") := by
      unfold validate_city
      rw [h2]
      rfl
    simp [validate_sales_record, ruleBlock, h1, hv]
  · intro h1 h2
    have hv : validate_channel (getField record "channel") = (false, some "Missing channel") := by
      unfold validate_channel
      rw [h2]
      rfl
    simp [validate_sales_record, ruleBlock, h1, hv]
  · intro h1 h2
    have hv : validate_payment_status (getField record "payment_status") =
        (false, some "Missing payment_status") := by
      unfold validate_payment_status
      rw [h2]
      rfl
    simp [validate_sales_record, ruleBlock, h1, hv]

/-- Witness for C9 on the concrete record `recC9`, whose four gated fields
are all present but null. -/
theorem c9_witness :
    (⟨"INVALID_TIMESTAMP", some "Missing timestamp", "DROP"⟩ : Issue0) ∈
      validate_sales_record recC9 (Value.str "R") ∧
    (⟨"INVALID_CITY", some "Missing city", "CORRECT"⟩ : Issue0) ∈
      validate_sales_record recC9 (Value.str "R") ∧
    (⟨"INVALID_CHANNEL", some "Missing channel", "CORRECT"⟩ : Issue0) ∈
      validate_sales_record recC9 (Value.str "R") ∧
    (⟨"INVALID_VALUE", some "Missing payment_status", "CORRECT"⟩ : Issue0) ∈
      validate_sales_record recC9 (Value.str "R") :=
  ⟨(c9_null_gated_fields recC9 (Value.str "R")).1 (by decide) (by decide),
   (c9_null_gated_fields recC9 (Value.str "R")).2.1 (by decide) (by decide),
   (c9_null_gated_fields recC9 (Value.str "R")).2.2.1 (by decide) (by decide),
   (c9_null_gated_fields recC9 (Value.str "R")).2.2.2 (by decide) (by decide)⟩

/-- Any member of a rule block carries that block's issue type and action. -/
theorem mem_ruleBlock {iss : Issue0} {p : Bool} {res : Bool × Option String} {ty act : String}
    (h : iss ∈ ruleBlock p res ty act) : iss.issue_type = ty ∧ iss.action_taken = act := by
  unfold ruleBlock at h
  split at h
  · split at h
    · simp at h
    · rw [List.mem_singleton] at h
      subst h
      exact ⟨rfl, rfl⟩
  · simp at h

/-- Every issue a sales-record validation emits carries one of the fixed
`(issue_type, action_taken)` pairs. -/
theorem sales_issue_pairs {iss : Issue0} {record : Record} {rid : Value}
    (h : iss ∈ validate_sales_record record rid) :
    (iss.issue_type, iss.action_taken) ∈ issuePairs := by
  simp only [validate_sales_record, List.append_assoc, List.mem_append] at h
  rcases h with h | h | h | h | h | h | h | h
  all_goals
    first
      | (rcases mem_ruleBlock h with ⟨h1, h2⟩
         rw [h1, h2]
         decide)
      | (split at h
         · rw [List.mem_singleton] at h
           subst h
           decide
         · simp at h)

/-- Every issue an inventory-record validation emits carries one of the
fixed `(issue_type, action_taken)` pairs. -/
theorem inventory_issue_pairs {iss : Issue0} {record : Record} {rid : Value}
    (h : iss ∈ validate_inventory_record record rid) :
    (iss.issue_type, iss.action_taken) ∈ issuePairs := by
  rcases mem_ruleBlock h with ⟨h1, h2⟩
  rw [h1, h2]
  decide

/-- Every issue a products-record validation emits carries one of the fixed
`(issue_type, action_taken)` pairs. -/
theorem products_issue_pairs {iss : Issue0} {record : Record} {rid : Value}
    (h : iss ∈ validate_products_record record rid) :
    (iss.issue_type, iss.action_taken) ∈ issuePairs := by
  simp only [validate_products_record, List.mem_append] at h
  rcases h with h | h
  · split at h
    · rw [List.mem_singleton] at h
      subst h
      decide
    · simp at h
  · rcases mem_ruleBlock h with ⟨h1, h2⟩
    rw [h1, h2]
    decide

/-- C10: under a supported dataset kind, every emitted issue's `issue_type`
is one of the eight pre-populated policy categories, its `action_taken`
equals the action `get_policy` returns for that type, and that action is
never the SKIP fallback. -/
theorem c10_policy_coverage (s : List IssueRow) (df : List Record) (k : String)
    (hk : k = "sales" ∨ k = "inventory" ∨ k = "products")
    (iss : IssueRow) (h : iss ∈ (validate_dataset s df k).1) :
    iss.issue_type ∈ policyKeys ∧
    (get_policy iss.issue_type).action = iss.action_taken ∧
    (get_policy iss.issue_type).action ≠ "SKIP" := by
  have key : ∀ (n : ℕ) (l : List Record) (i : IssueRow), i ∈ validateRows n l k →
      (i.issue_type, i.action_taken) ∈ issuePairs := by
    intro n l
    induction l generalizing n with
    | nil =>
      intro i hi
      simp [validateRows] at hi
    | cons row rest ih =>
      intro i hi
      simp only [validateRows] at hi
      rcases List.mem_append.mp hi with h1 | h2
      · rcases List.mem_map.mp h1 with ⟨i0, hi0, hmap⟩
        have hpair : (i0.issue_type, i0.action_taken) ∈ issuePairs := by
          split at hi0
          · exact sales_issue_pairs hi0
          · split at hi0
            · exact inventory_issue_pairs hi0
            · split at hi0
              · exact products_issue_pairs hi0
              · simp at hi0
        rw [← hmap]
        exact hpair
      · exact ih (n + 1) i h2
  have hpair := key 0 df iss h
  have hall : ∀ p ∈ issuePairs,
      p.1 ∈ policyKeys ∧ (get_policy p.1).action = p.2 ∧ (get_policy p.1).action ≠ "SKIP" := by
    decide
  exact hall _ hpair

/-- Witness for C10: the `MISSING_VALUE` issue an empty sales record emits
is covered by the policy table with action IMPUTE, not SKIP. -/
theorem c10_witness :
    ("MISSING_VALUE" : String) ∈ policyKeys ∧
    (get_policy "MISSING_VALUE").action = "IMPUTE" ∧
    (get_policy "MISSING_VALUE").action ≠ "SKIP" :=
  c10_policy_coverage [] [[]] "sales" (Or.inl rfl)
    ⟨Value.str "ROW_0", "MISSING_VALUE", some "Missing discount_pct", "IMPUTE"⟩ (by decide)

/-- Witness for C8 (amended) at concrete coercion failures: `None` price,
NaN quantity, non-numeric stock, an unparsable pattern-shaped timestamp, and
a non-numeric cost (the permissive case). -/
theorem c8_amended_witness :
    validate_price Value.none_ = (false, some ("Not numeric: " ++ pyStr Value.none_)) ∧
    validate_quantity Value.nan = (false, some ("Not numeric: " ++ pyStr Value.nan)) ∧
    validate_stock (Value.str "abc") = (false, some ("Not numeric: " ++ pyStr (Value.str "abc"))) ∧
    validate_timestamp (Value.str "2024-13-40 99:99:99") =
      (false, some ("Unparsable: " ++ pyStr (Value.str "2024-13-40 99:99:99"))) ∧
    validate_cost_constraint (Value.str "abc") (Value.num 50) = (true, none) :=
  ⟨c8_amended.1 Value.none_ rfl,
   c8_amended.2.1 Value.nan (Or.inr rfl),
   c8_amended.2.2.1 (Value.str "abc") rfl,
   c8_amended.2.2.2.1 (Value.str "2024-13-40 99:99:99")
     (by decide) (by decide) (by decide) (by decide),
   c8_amended.2.2.2.2 (Value.str "abc") (Value.num 50) (Or.inl rfl)⟩
